import Mathlib

/-!
Shallow embedding of the `render_loop` repository
(crates/rl_graphics/src/lib.rs, crates/rl_graphics/src/object.rs,
examples/game/src/lib.rs) and proofs about its render-loop state machine,
startup sequence, geometry objects and the example drawable.

Modelling conventions:
* GPU handles (window, instance, surface, adapter, device, queue, buffers,
  pipelines, frames, texture formats, alpha modes) are opaque and modelled
  as `Nat` identifiers; the code never inspects them.
* `wgpu` bit-flag sets (`Features`, `TextureUsages`) are modelled as `Nat`
  bitmasks with `&&&` / `|||`, exactly as the Rust `bitflags` operations.
* The event-loop closure in `Graphics::run` is modelled as a pure function
  from the current state, the result of a potential surface acquisition and
  one event to a new state plus a trace of the side effects it performs, or
  a panic message (`Except.error`) when the Rust code panics.
* Side effects (surface reconfiguration, drawable `resize`/`render` calls,
  queue submission, frame presentation, redraw requests) are recorded in
  order in an effect trace.
-/

namespace RenderLoop

/-- Identifier of a registered drawable: its position-independent handle.
The registry is an ordered list of these, mirroring
`renderables: Vec<Box<dyn Renderable>>`. -/
abbrev DrawableId := Nat

/-- `wgpu::PresentMode`; the code only ever uses `Fifo`. -/
inductive PresentMode where
  | Fifo
  | Immediate
  | Mailbox
deriving DecidableEq, Repr

/-- `wgpu::Color` (four channels; the code only uses `Color::BLACK`,
i.e. r = g = b = 0, a = 1). Channel values are exact numerals here since
only `BLACK` ever occurs. -/
structure Color where
  r : Nat
  g : Nat
  b : Nat
  a : Nat
deriving DecidableEq, Repr

/-- `wgpu::Color::BLACK`. -/
def Color.BLACK : Color := ⟨0, 0, 0, 1⟩

/-- `wgpu::TextureUsages::RENDER_ATTACHMENT` (bit 4 of the usage bitmask). -/
def RENDER_ATTACHMENT : Nat := 2 ^ 4

/-- `wgpu::Features::POLYGON_MODE_LINE`: a single bit of the features
bitmask (the concrete bit position is irrelevant to the code's logic). -/
def POLYGON_MODE_LINE : Nat := 2 ^ 8

/-- `wgpu::SurfaceConfiguration` as built and mutated by the code
(lib.rs lines 68-77, 103-104, 111-112). -/
structure SurfaceConfiguration where
  usage : Nat
  format : Nat
  width : Nat
  height : Nat
  desired_maximum_frame_latency : Nat
  present_mode : PresentMode
  alpha_mode : Nat
  view_formats : List Nat
deriving DecidableEq, Repr

/-- The `Graphics` struct (lib.rs lines 20-29); the `instance` field is
renamed `inst` (`instance` is a keyword here). Handles are opaque `Nat`s;
`renderables` keeps only the identity of each registered drawable, in
registration order (their behaviour is traced, see `Effect`). -/
structure Graphics where
  window : Nat
  inst : Nat
  config : SurfaceConfiguration
  surface : Nat
  adapter : Nat
  device : Nat
  queue : Nat
  renderables : List DrawableId
deriving DecidableEq, Repr

/-- `winit::keyboard::NamedKey` (only `Escape` is distinguished by the code). -/
inductive NamedKey where
  | Escape
  | otherNamed (code : Nat)
deriving DecidableEq, Repr

/-- `winit::keyboard::Key`. -/
inductive Key where
  | Named (k : NamedKey)
  | Character (s : String)
  | otherKey (code : Nat)
deriving DecidableEq, Repr

/-- `winit::event::KeyEvent`: the code only inspects `logical_key`. -/
structure KeyEvent where
  logical_key : Key
deriving DecidableEq, Repr

/-- `winit::event::WindowEvent`, restricted to the constructors the match
in `Graphics::run` distinguishes; every other window event is
`otherWindowEvent` (hitting the `_ => {}` arm). -/
inductive WindowEvent where
  | Resized (width height : Nat)
  | KeyboardInput (event : KeyEvent)
  | CloseRequested
  | RedrawRequested
  | otherWindowEvent (code : Nat)
deriving DecidableEq, Repr

/-- `winit::event::Event`: a window event or anything else
(hitting the outer `_ => {}` arm). -/
inductive Event where
  | WindowEvent (event : WindowEvent)
  | otherEvent (code : Nat)
deriving DecidableEq, Repr

/-- One observable side effect performed by the event-loop closure, in the
order the code performs them. -/
inductive Effect where
  | surfaceConfigure (config : SurfaceConfiguration)
  | drawableResize (i : DrawableId) (width height : Nat)
  | requestRedraw
  | acquireFrame (frame : Nat)
  | createView
  | createCommandEncoder
  | beginRenderPass (clearColor : Color)
  | pushDebugGroup (label : String)
  | drawableRender (i : DrawableId)
  | endRenderPass
  | queueSubmit
  | present (frame : Nat)
deriving DecidableEq, Repr

/-- Result of one invocation of the event-loop closure: the (possibly
mutated) `Graphics` state, the effect trace, and whether `target.exit()`
was called. -/
structure HandlerResult where
  graphics : Graphics
  effects : List Effect
  exitRequested : Bool
deriving DecidableEq, Repr

/-- The `WindowEvent::RedrawRequested` arm (lib.rs lines 133-171).
`acquired` is the result of `surface.get_current_texture()`: `none` models
the error case, on which the code panics via `.expect`. On success the
trace is: acquire, create view, create encoder, begin the render pass with
clear colour `BLACK`, push the debug group, `render` each registered
drawable in registration order, end the pass (the scope closes), submit,
present, request another redraw. -/
def Graphics.handleRedraw (g : Graphics) (acquired : Option Nat) :
    Except String (List Effect) :=
  match acquired with
  | none => .error "Failed to acquire next swap chain texture"
  | some frame =>
      .ok ([.acquireFrame frame, .createView, .createCommandEncoder,
            .beginRenderPass Color.BLACK, .pushDebugGroup "Prepare data for draw."]
           ++ g.renderables.map (fun i => .drawableRender i)
           ++ [.endRenderPass, .queueSubmit, .present frame, .requestRedraw])

/-- The inner `match event` of the second outer arm
(`Event::WindowEvent { event, .. } => match event`, lib.rs lines 109-173).
Its `Resized` arm (lines 110-120) clamps to ≥ 1 and notifies every
registered drawable — but see `Graphics.handleEvent`: the outer match's
first arm already captures every `Resized` event, so this arm is
unreachable from `handleEvent`. -/
def Graphics.handleWindowEventInner (g : Graphics) (acquired : Option Nat) :
    WindowEvent → Except String HandlerResult
  | .Resized w h =>
      let config := { g.config with width := max w 1, height := max h 1 }
      .ok ⟨{ g with config := config },
           [.surfaceConfigure config]
             ++ g.renderables.map (fun i => .drawableResize i w h)
             ++ [.requestRedraw],
           false⟩
  | .KeyboardInput ⟨.Named .Escape⟩ => .ok ⟨g, [], true⟩
  | .CloseRequested => .ok ⟨g, [], true⟩
  | .RedrawRequested =>
      (g.handleRedraw acquired).map (fun effs => ⟨g, effs, false⟩)
  | _ => .ok ⟨g, [], false⟩

/-- The event-loop closure of `Graphics::run` (lib.rs lines 95-175),
as a function of the current state, the acquisition outcome an eventual
`get_current_texture` call would see, and the incoming event.
The outer match tries its arms in order: the first arm
(lines 99-107) matches every `Event::WindowEvent` carrying
`WindowEvent::Resized` — it stores the new size UNCLAMPED, reconfigures the
surface and requests a redraw, without notifying any drawable; only
non-`Resized` window events reach the inner match. -/
def Graphics.handleEvent (g : Graphics) (acquired : Option Nat) :
    Event → Except String HandlerResult
  | .WindowEvent (.Resized w h) =>
      let config := { g.config with width := w, height := h }
      .ok ⟨{ g with config := config },
           [.surfaceConfigure config, .requestRedraw], false⟩
  | .WindowEvent we => g.handleWindowEventInner acquired we
  | _ => .ok ⟨g, [], false⟩

/-- State of the render-loop controller: `Running` while
`event_loop.run` keeps dispatching events to the closure, `Exiting`
(terminal) once `target.exit()` has been called. -/
inductive Mode where
  | Running
  | Exiting
deriving DecidableEq, Repr

/-- The loop state: the `Graphics` value owned by the closure plus the
controller mode. -/
structure LoopState where
  graphics : Graphics
  mode : Mode
deriving DecidableEq, Repr

/-- One step of `event_loop.run`: in `Exiting` the loop has terminated, so
an event delivered afterwards is not processed (no effects, no state
change); in `Running` the closure handles the event and `target.exit()`
moves the loop to `Exiting`. -/
def stepLoop (s : LoopState) (acquired : Option Nat) (ev : Event) :
    Except String (LoopState × List Effect) :=
  match s.mode with
  | .Exiting => .ok (s, [])
  | .Running =>
      match s.graphics.handleEvent acquired ev with
      | .error e => .error e
      | .ok r =>
          .ok (⟨r.graphics, if r.exitRequested then .Exiting else .Running⟩,
               r.effects)

/-- `event_loop.run` over a finite prefix of the event stream, each event
paired with the acquisition outcome available at that step; the traces of
all processed events are concatenated. -/
def runLoop : LoopState → List (Option Nat × Event) →
    Except String (LoopState × List Effect)
  | s, [] => .ok (s, [])
  | s, (acq, ev) :: rest =>
      match stepLoop s acq ev with
      | .error e => .error e
      | .ok (s', effs) =>
          match runLoop s' rest with
          | .error e => .error e
          | .ok (s'', effs') => .ok (s'', effs ++ effs')

/-- `wgpu::PowerPreference`; `PowerPreference::default()` is `None`. -/
inductive PowerPreference where
  | NoPreference
  | LowPower
  | HighPerformance
deriving DecidableEq, Repr

/-- `wgpu::PowerPreference::default()`. -/
def PowerPreference.default : PowerPreference := .NoPreference

/-- `wgpu::RequestAdapterOptions` as built at lib.rs lines 37-41.
`compatible_surface` holds the surface handle. -/
structure RequestAdapterOptions where
  power_preference : PowerPreference
  force_fallback_adapter : Bool
  compatible_surface : Option Nat
deriving DecidableEq, Repr

/-- `wgpu::Adapter`: an opaque handle plus the two pieces of data the code
reads from it, its supported-features bitmask and its limits (opaque). -/
structure Adapter where
  handle : Nat
  features : Nat
  limits : Nat
deriving DecidableEq, Repr

/-- `wgpu::DeviceDescriptor` as built at lib.rs lines 55-59.
`required_limits` is opaque: the code passes
`Limits::downlevel_webgl2_defaults().using_resolution(adapter.limits())`,
a value derived only from the adapter's limits, which no claim inspects. -/
structure DeviceDescriptor where
  label : Option String
  required_features : Nat
  required_limits : Nat
deriving DecidableEq, Repr

/-- `wgpu::SurfaceCapabilities`: the two lists the code reads
(lib.rs lines 65-66 and 75). -/
structure SurfaceCapabilities where
  formats : List Nat
  alpha_modes : List Nat
deriving DecidableEq, Repr

/-- The external collaborators `Graphics::new` calls into: the window,
the surface-creation result, the adapter/device negotiation, the surface
capabilities and the `WGPU_TRACE` environment variable. -/
structure GpuEnv where
  window : Nat
  inner_size : Nat × Nat
  create_surface : Except String Nat
  request_adapter : RequestAdapterOptions → Option Adapter
  request_device : DeviceDescriptor → Option String → Option (Nat × Nat)
  get_capabilities : SurfaceCapabilities
  trace_dir : Option String

/-- One step of the startup sequence, recorded in order. -/
inductive StartupStep where
  | instanceDefault
  | createSurface
  | requestAdapter (opts : RequestAdapterOptions)
  | requestDevice (desc : DeviceDescriptor)
  | getCapabilities
  | configureSurface (config : SurfaceConfiguration)
deriving DecidableEq, Repr

/-- The `RequestAdapterOptions` built at lib.rs lines 37-41 for a given
surface: default power preference, software fallback disallowed,
compatibility with that surface required. -/
def adapterOptions (surface : Nat) : RequestAdapterOptions :=
  { power_preference := PowerPreference.default,
    force_fallback_adapter := false,
    compatible_surface := some surface }

/-- The `DeviceDescriptor` built at lib.rs lines 55-59 for a given adapter:
no label, `required_features = (optional_features & adapter_features) |
required_features` where `optional_features = Features::POLYGON_MODE_LINE`
and `required_features = Features::empty()` (lines 45-46, 51, 57), and the
limits derived from the adapter's limits (line 48-49, opaque here). -/
def deviceDescriptor (adapter : Adapter) : DeviceDescriptor :=
  { label := none,
    required_features := (POLYGON_MODE_LINE &&& adapter.features) ||| 0,
    required_limits := adapter.limits }

/-- `Graphics::new` (lib.rs lines 32-91): create the default instance and a
surface, request an adapter compatible with it (default power preference,
no fallback), request a device/queue whose `required_features` is
`(POLYGON_MODE_LINE & adapter.features()) | Features::empty()`, read the
surface capabilities, take `formats[0]` as the swapchain format and
`alpha_modes[0]` as the alpha mode (a panic if either list is empty),
build the configuration from `window.inner_size()` unclamped and configure
the surface. Each `?`/`.expect` failure aborts with the corresponding
message. On success also returns the ordered trace of startup steps. -/
def Graphics.new (env : GpuEnv) : Except String (Graphics × List StartupStep) :=
  match env.create_surface with
  | .error e => .error e
  | .ok surface =>
    match env.request_adapter (adapterOptions surface) with
    | none => .error "Failed to find an appropriate adapter"
    | some adapter =>
      match env.request_device (deviceDescriptor adapter) env.trace_dir with
      | none => .error "Unable to find a suitable GPU adapter!"
      | some (device, queue) =>
        match env.get_capabilities.formats.head? with
        | none => .error "index out of bounds: the len is 0 but the index is 0"
        | some swapchain_format =>
          match env.get_capabilities.alpha_modes.head? with
          | none => .error "index out of bounds: the len is 0 but the index is 0"
          | some alpha0 =>
            let config : SurfaceConfiguration :=
              { usage := RENDER_ATTACHMENT,
                format := swapchain_format,
                width := env.inner_size.1,
                height := env.inner_size.2,
                desired_maximum_frame_latency := 2,
                present_mode := .Fifo,
                alpha_mode := alpha0,
                view_formats := [swapchain_format] }
            .ok ({ window := env.window, inst := 0, config := config,
                   surface := surface, adapter := adapter.handle,
                   device := device, queue := queue, renderables := [] },
                 [.instanceDefault, .createSurface,
                  .requestAdapter (adapterOptions surface),
                  .requestDevice (deviceDescriptor adapter), .getCapabilities,
                  .configureSurface config])

end RenderLoop

namespace RlObject

/-- An `f32` value, identified with its 32-bit pattern (no floating-point
arithmetic is ever performed on vertex data by the code). -/
structure F32 where
  bits : Nat
deriving DecidableEq, Repr

/-- `rl_graphics::object::Vertex` (object.rs lines 5-8): a 4-component
position and a 2-component texture coordinate. -/
structure Vertex where
  _pos : F32 × F32 × F32 × F32
  _tex_coord : F32 × F32
deriving DecidableEq, Repr

/-- `rl_graphics::object::Object` (object.rs lines 10-13); index values
are `u16`, embedded into `Nat`. -/
structure Object where
  vertices : List Vertex
  indices : List Nat
deriving DecidableEq, Repr

/-- `Object::new` (object.rs lines 16-18): stores both arguments verbatim,
with no validation. -/
def Object.new (vertices : List Vertex) (indices : List Nat) : Object :=
  { vertices := vertices, indices := indices }

/-- The geometry invariant asserted by the spec: every index value is
strictly below the vertex count, and the index count is a multiple of 3. -/
def Object.indexInvariant (o : Object) : Prop :=
  (∀ i ∈ o.indices, i < o.vertices.length) ∧ o.indices.length % 3 = 0

instance (o : Object) : Decidable o.indexInvariant := by
  unfold Object.indexInvariant
  infer_instance

end RlObject

namespace Game

/-- `game::Cube` (examples/game/src/lib.rs lines 10-17). Buffer, pipeline
and bind-group handles are opaque; `uniform_buf` is modelled by its
GPU-visible content of type `M` (the 4x4 `f32` matrix bytes), since
`Cube::resize` overwrites the whole buffer via `queue.write_buffer` at
offset 0. -/
structure Cube (M : Type) where
  vertex_buf : Nat
  index_buf : Nat
  uniform_buf : M
  render_pipeline : Nat
  bind_group : Nat
  index_count : Nat
deriving DecidableEq, Repr

/-- `Cube::resize` (examples/game/src/lib.rs lines 127-131): computes
`generate_matrix(width as f32 / height as f32)` and writes the resulting
64 matrix bytes over the whole uniform buffer. The composite deterministic
`f32` computation (division then `generate_matrix`) is abstracted as the
function argument `generate_matrix : Nat → Nat → M` of the two
dimensions; the GPU-visible uniform state after the queued write is the
new `uniform_buf` content. -/
def Cube.resize {M : Type} (generate_matrix : Nat → Nat → M)
    (c : Cube M) (width height : Nat) : Cube M :=
  { c with uniform_buf := generate_matrix width height }

end Game

namespace RenderLoop

/-- A configuration a running `Graphics` could hold (concrete values for
the opaque handles), used to evaluate the handlers on concrete inputs. -/
def sampleConfig : SurfaceConfiguration :=
  { usage := RENDER_ATTACHMENT, format := 21, width := 640, height := 480,
    desired_maximum_frame_latency := 2, present_mode := .Fifo,
    alpha_mode := 31, view_formats := [21] }

/-- A concrete `Graphics` state with one registered drawable (id 0). -/
def sampleGraphics : Graphics :=
  { window := 1, inst := 0, config := sampleConfig, surface := 7,
    adapter := 3, device := 11, queue := 13, renderables := [0] }

/-- A concrete startup environment on which every step succeeds. -/
def sampleEnv : GpuEnv :=
  { window := 1,
    inner_size := (800, 600),
    create_surface := .ok 7,
    request_adapter := fun _ => some ⟨3, POLYGON_MODE_LINE, 5⟩,
    request_device := fun _ _ => some (11, 13),
    get_capabilities := ⟨[21, 22], [31, 32]⟩,
    trace_dir := none }

/-- `sampleEnv` with a zero-sized window, as reported by
`window.inner_size()` for a not-yet-laid-out or minimized window. -/
def zeroSizeEnv : GpuEnv :=
  { sampleEnv with inner_size := (0, 0) }

/-- In `Exiting` a step processes nothing: the loop has terminated. -/
theorem stepLoop_exiting (s : LoopState) (acq : Option Nat) (ev : Event)
    (h : s.mode = .Exiting) : stepLoop s acq ev = .ok (s, []) := by
  obtain ⟨g, m⟩ := s
  simp only at h
  subst h
  rfl

/-- Once `Exiting`, an entire remaining event stream produces no state
change and no effects. -/
theorem runLoop_exiting (s : LoopState) (evs : List (Option Nat × Event))
    (h : s.mode = .Exiting) : runLoop s evs = .ok (s, []) := by
  induction evs with
  | nil => rfl
  | cons e rest ih =>
      obtain ⟨acq, ev⟩ := e
      simp [runLoop, stepLoop_exiting s acq ev h, ih]

end RenderLoop

namespace Claims

open RenderLoop RlObject Game

/-- C1: the claim says a resize event (w,h) with w,h ≥ 1 processed while
Running updates the configuration to (w,h), reconfigures the surface,
invokes `resize` on every registered Drawable with (w,h) and requests a
redraw. The code violates the Drawable-notification part: the first match
arm of `Graphics::run` (lib.rs lines 99-107) captures every `Resized`
event and performs no drawable notification, shadowing the arm at lines
109-120 that would. Evaluated at the failing input — event Resized(800,600)
with one registered drawable — the reachable handler emits only the surface
reconfiguration and the redraw request, no `drawableResize` effect at all,
while the shadowed inner arm would have emitted `drawableResize 0 800 600`. -/
theorem c1_resize_event_skips_drawable_notification :
    (sampleGraphics.handleEvent none (.WindowEvent (.Resized 800 600)) =
       .ok ⟨{ sampleGraphics with
                config := { sampleConfig with width := 800, height := 600 } },
            [.surfaceConfigure { sampleConfig with width := 800, height := 600 },
             .requestRedraw], false⟩)
    ∧ (∀ i w h, Effect.drawableResize i w h ∉
         [Effect.surfaceConfigure
            { sampleConfig with width := 800, height := 600 },
          Effect.requestRedraw])
    ∧ (sampleGraphics.handleWindowEventInner none (.Resized 800 600) =
       .ok ⟨{ sampleGraphics with
                config := { sampleConfig with width := 800, height := 600 } },
            [.surfaceConfigure { sampleConfig with width := 800, height := 600 },
             .drawableResize 0 800 600, .requestRedraw], false⟩) := by
  refine ⟨rfl, ?_, rfl⟩
  intro i w h hmem
  simp [List.mem_cons] at hmem

/-- C2: the claim says the surface configuration's width and height are
always ≥ 1, with zero-sized dimensions clamped before being applied. The
code violates this on both paths that set the size: `Graphics::new` applies
`window.inner_size()` unclamped (lib.rs lines 71-72), and the reachable
`Resized` arm (lines 103-104) stores the event's size unclamped — the
clamping `.max(1)` lives only in the shadowed arm at lines 111-112.
Evaluated at the failing inputs: startup with a (0,0) window produces a
configuration of width 0 and height 0, and processing Resized(0,600) from a
running state stores width 0 and configures the surface with it. -/
theorem c2_zero_size_is_not_clamped :
    (∃ g tr, Graphics.new zeroSizeEnv = .ok (g, tr) ∧
       g.config.width = 0 ∧ g.config.height = 0)
    ∧ (∃ r, sampleGraphics.handleEvent none (.WindowEvent (.Resized 0 600)) =
         .ok r ∧ r.graphics.config.width = 0 ∧
         r.effects = [.surfaceConfigure r.graphics.config, .requestRedraw]) := by
  exact ⟨⟨_, _, rfl, rfl, rfl⟩, ⟨_, rfl, rfl, rfl⟩⟩

/-- C3: processing one Redraw-requested event while Running, with a frame
successfully acquired, performs exactly — in order — the frame acquisition,
one view and one command encoder creation, exactly one render pass opened
with the fixed clear colour BLACK, the debug-group push, one `render` call
per registered drawable in registration order inside that single pass, the
pass close, one queue submission, one presentation of the acquired frame,
and a new redraw request; the state stays Running and unchanged. Holds for
every registry, including the empty one. -/
theorem c3_redraw_cycle_trace (g : Graphics) (frame : Nat) :
    stepLoop ⟨g, .Running⟩ (some frame) (.WindowEvent .RedrawRequested) =
      .ok (⟨g, .Running⟩,
        [.acquireFrame frame, .createView, .createCommandEncoder,
         .beginRenderPass Color.BLACK, .pushDebugGroup "Prepare data for draw."]
        ++ g.renderables.map (fun i => .drawableRender i)
        ++ [.endRenderPass, .queueSubmit, .present frame, .requestRedraw]) := rfl

/-- C4: Close-requested and Escape-key-pressed both move a Running loop to
the terminal Exiting state with no effects, and once Exiting no delivered
event — singly or as a whole stream — produces any state change or any
effect (in particular no Redraw processing). -/
theorem c4_close_escape_exit_terminal :
    (∀ g acq, stepLoop ⟨g, .Running⟩ acq (.WindowEvent .CloseRequested) =
       .ok (⟨g, .Exiting⟩, []))
    ∧ (∀ g acq, stepLoop ⟨g, .Running⟩ acq
         (.WindowEvent (.KeyboardInput ⟨.Named .Escape⟩)) =
       .ok (⟨g, .Exiting⟩, []))
    ∧ (∀ s acq ev, s.mode = .Exiting → stepLoop s acq ev = .ok (s, []))
    ∧ (∀ s evs, s.mode = .Exiting → runLoop s evs = .ok (s, [])) :=
  ⟨fun _ _ => rfl, fun _ _ => rfl, stepLoop_exiting, runLoop_exiting⟩

/-- C4 witness: instantiating the hypothesised conjuncts at the concrete
exiting state: a Redraw-requested delivered after exit is not processed. -/
theorem c4_witness :
    stepLoop ⟨sampleGraphics, .Exiting⟩ none (.WindowEvent .RedrawRequested) =
      .ok (⟨sampleGraphics, .Exiting⟩, [])
    ∧ runLoop ⟨sampleGraphics, .Exiting⟩
        [(none, .WindowEvent .RedrawRequested),
         (none, .WindowEvent (.Resized 800 600))] =
      .ok (⟨sampleGraphics, .Exiting⟩, []) :=
  ⟨c4_close_escape_exit_terminal.2.2.1 ⟨sampleGraphics, .Exiting⟩ none
     (.WindowEvent .RedrawRequested) rfl,
   c4_close_escape_exit_terminal.2.2.2 ⟨sampleGraphics, .Exiting⟩
     [(none, .WindowEvent .RedrawRequested),
      (none, .WindowEvent (.Resized 800 600))] rfl⟩

/-- C5: if frame acquisition fails during the Redraw-requested action
(`get_current_texture` returns no frame), the closure panics with the
`.expect` message — the failure is fatal, the loop does not recover or
continue. -/
theorem c5_acquisition_failure_fatal (g : Graphics) :
    stepLoop ⟨g, .Running⟩ none (.WindowEvent .RedrawRequested) =
      .error "Failed to acquire next swap chain texture" := rfl

/-- C10: processing a resize event mutates only the width and height of the
surface configuration: format, usage, present mode, alpha mode, view
formats and maximum buffered frames, as well as the drawable registry and
the device and queue handles, are all unchanged. -/
theorem c10_resize_frame_effect (g : Graphics) (acq : Option Nat) (w h : Nat) :
    ∃ r, g.handleEvent acq (.WindowEvent (.Resized w h)) = .ok r ∧
      r.graphics.config.width = w ∧
      r.graphics.config.height = h ∧
      r.graphics.config.format = g.config.format ∧
      r.graphics.config.usage = g.config.usage ∧
      r.graphics.config.present_mode = g.config.present_mode ∧
      r.graphics.config.alpha_mode = g.config.alpha_mode ∧
      r.graphics.config.view_formats = g.config.view_formats ∧
      r.graphics.config.desired_maximum_frame_latency =
        g.config.desired_maximum_frame_latency ∧
      r.graphics.renderables = g.renderables ∧
      r.graphics.device = g.device ∧
      r.graphics.queue = g.queue :=
  ⟨_, rfl, rfl, rfl, rfl, rfl, rfl, rfl, rfl, rfl, rfl, rfl, rfl⟩

/-- Masking an arbitrary features bitmask with the single-bit
`POLYGON_MODE_LINE` flag and or-ing with the empty feature set yields
exactly the flag when the adapter reports it and nothing otherwise. -/
theorem features_and_single_bit (a : Nat) :
    (POLYGON_MODE_LINE &&& a) ||| 0 =
      if a.testBit 8 = true then POLYGON_MODE_LINE else 0 := by
  unfold POLYGON_MODE_LINE
  rw [Nat.or_zero, Nat.two_pow_and]
  cases h : a.testBit 8 <;> simp [h]

/-- C6: startup device acquisition performs, in order: default instance,
surface creation, adapter request (default power preference, software
fallback disallowed, compatible with that surface), device/queue request
whose required features are exactly `POLYGON_MODE_LINE` when the adapter
reports it and the empty set otherwise, capability read picking the first
reported format as the configuration's format, then the initial surface
configuration; and failure at any step aborts startup (the result is the
corresponding panic/error, and no frame-rendering step exists in
`Graphics::new` at all). -/
theorem c6_startup_device_acquisition (env : GpuEnv) :
    (∀ g tr, Graphics.new env = .ok (g, tr) →
       ∃ surface adapter device queue,
         env.create_surface = .ok surface ∧
         env.request_adapter (adapterOptions surface) = some adapter ∧
         env.request_device (deviceDescriptor adapter) env.trace_dir =
           some (device, queue) ∧
         tr = [.instanceDefault, .createSurface,
               .requestAdapter (adapterOptions surface),
               .requestDevice (deviceDescriptor adapter), .getCapabilities,
               .configureSurface g.config] ∧
         (adapterOptions surface).power_preference = PowerPreference.default ∧
         (adapterOptions surface).force_fallback_adapter = false ∧
         (adapterOptions surface).compatible_surface = some surface ∧
         (deviceDescriptor adapter).required_features =
           (if adapter.features.testBit 8 = true then POLYGON_MODE_LINE
            else 0) ∧
         env.get_capabilities.formats.head? = some g.config.format ∧
         g.device = device ∧ g.queue = queue ∧ g.renderables = [])
    ∧ (∀ e, env.create_surface = .error e → Graphics.new env = .error e)
    ∧ (∀ surface, env.create_surface = .ok surface →
         env.request_adapter (adapterOptions surface) = none →
         Graphics.new env = .error "Failed to find an appropriate adapter")
    ∧ (∀ surface adapter, env.create_surface = .ok surface →
         env.request_adapter (adapterOptions surface) = some adapter →
         env.request_device (deviceDescriptor adapter) env.trace_dir = none →
         Graphics.new env =
           .error "Unable to find a suitable GPU adapter!") := by
  refine ⟨?_, ?_, ?_, ?_⟩
  · intro g tr hok
    unfold Graphics.new at hok
    cases hsurf : env.create_surface with
    | error e => simp only [hsurf] at hok; exact Except.noConfusion hok
    | ok surface =>
      simp only [hsurf] at hok
      cases hadapt : env.request_adapter (adapterOptions surface) with
      | none => simp only [hadapt] at hok; exact Except.noConfusion hok
      | some adapter =>
        simp only [hadapt] at hok
        cases hdev : env.request_device (deviceDescriptor adapter)
            env.trace_dir with
        | none => simp only [hdev] at hok; exact Except.noConfusion hok
        | some dq =>
          obtain ⟨device, queue⟩ := dq
          simp only [hdev] at hok
          cases hfmt : env.get_capabilities.formats.head? with
          | none => simp only [hfmt] at hok; exact Except.noConfusion hok
          | some swapchain_format =>
            simp only [hfmt] at hok
            cases halpha : env.get_capabilities.alpha_modes.head? with
            | none => simp only [halpha] at hok; exact Except.noConfusion hok
            | some alpha0 =>
              simp only [halpha, Except.ok.injEq, Prod.mk.injEq] at hok
              obtain ⟨hg, htr⟩ := hok
              subst hg
              subst htr
              exact ⟨surface, adapter, device, queue, rfl, hadapt, hdev,
                     rfl, rfl, rfl, rfl, features_and_single_bit _,
                     rfl, rfl, rfl, rfl⟩
  · intro e hsurf
    unfold Graphics.new
    simp only [hsurf]
  · intro surface hsurf hadapt
    unfold Graphics.new
    simp only [hsurf, hadapt]
  · intro surface adapter hsurf hadapt hdev
    unfold Graphics.new
    simp only [hsurf, hadapt, hdev]

/-- The configuration `Graphics::new` builds on `sampleEnv`. -/
def sampleNewConfig : SurfaceConfiguration :=
  { usage := RENDER_ATTACHMENT, format := 21, width := 800, height := 600,
    desired_maximum_frame_latency := 2, present_mode := .Fifo,
    alpha_mode := 31, view_formats := [21] }

/-- The `Graphics` value `Graphics::new` returns on `sampleEnv`. -/
def sampleNewGraphics : Graphics :=
  { window := 1, inst := 0, config := sampleNewConfig, surface := 7,
    adapter := 3, device := 11, queue := 13, renderables := [] }

/-- The startup trace `Graphics::new` records on `sampleEnv`. -/
def sampleNewTrace : List StartupStep :=
  [.instanceDefault, .createSurface, .requestAdapter (adapterOptions 7),
   .requestDevice (deviceDescriptor ⟨3, POLYGON_MODE_LINE, 5⟩),
   .getCapabilities, .configureSurface sampleNewConfig]

/-- C6 witness: the success branch instantiated on the concrete
environment `sampleEnv`, on which every startup step succeeds. -/
theorem c6_witness :
    ∃ surface adapter device queue,
      sampleEnv.create_surface = .ok surface ∧
      sampleEnv.request_adapter (adapterOptions surface) = some adapter ∧
      sampleEnv.request_device (deviceDescriptor adapter)
        sampleEnv.trace_dir = some (device, queue) ∧
      sampleNewTrace = [.instanceDefault, .createSurface,
          .requestAdapter (adapterOptions surface),
          .requestDevice (deviceDescriptor adapter), .getCapabilities,
          .configureSurface sampleNewGraphics.config] ∧
      (adapterOptions surface).power_preference = PowerPreference.default ∧
      (adapterOptions surface).force_fallback_adapter = false ∧
      (adapterOptions surface).compatible_surface = some surface ∧
      (deviceDescriptor adapter).required_features =
        (if adapter.features.testBit 8 = true then POLYGON_MODE_LINE
         else 0) ∧
      sampleEnv.get_capabilities.formats.head? =
        some sampleNewGraphics.config.format ∧
      sampleNewGraphics.device = device ∧
      sampleNewGraphics.queue = queue ∧
      sampleNewGraphics.renderables = [] :=
  (c6_startup_device_acquisition sampleEnv).1 sampleNewGraphics
    sampleNewTrace rfl

/-- C7: the Cube drawable's `resize` is idempotent: for width and height
both ≥ 1, resizing twice with identical arguments leaves the GPU-visible
uniform-buffer content identical to resizing once, for every deterministic
matrix computation and every starting cube state. -/
theorem c7_cube_resize_idempotent {M : Type}
    (generate_matrix : Nat → Nat → M) (c : Cube M) (width height : Nat)
    (hw : 1 ≤ width) (hh : 1 ≤ height) :
    Cube.resize generate_matrix
        (Cube.resize generate_matrix c width height) width height =
      Cube.resize generate_matrix c width height := rfl

/-- A concrete cube state (uniform content modelled as a `Nat`). -/
def sampleCube : Cube Nat :=
  { vertex_buf := 0, index_buf := 1, uniform_buf := 0,
    render_pipeline := 2, bind_group := 3, index_count := 36 }

/-- C7 witness: idempotence instantiated at the concrete dimensions
800 × 600 and a concrete matrix function and cube state. -/
theorem c7_witness :
    1 ≤ 800 ∧ 1 ≤ 600 ∧
    Cube.resize (fun w h => w * 1000 + h)
        (Cube.resize (fun w h => w * 1000 + h) sampleCube 800 600)
        800 600 =
      Cube.resize (fun w h => w * 1000 + h) sampleCube 800 600 :=
  ⟨by decide, by decide,
   c7_cube_resize_idempotent (fun w h => w * 1000 + h) sampleCube 800 600
     (by decide) (by decide)⟩

/-- C8 counterexample: `Object::new` performs no validation, so the object
built from an empty vertex list and indices [0, 0, 0] is a constructed
Geometry Object that violates the index invariant (index 0 is not below
the vertex count 0), refuting the claim that every constructed object
satisfies it. -/
theorem c8_counterexample :
    ¬ (Object.new [] [0, 0, 0]).indexInvariant := by decide

/-- C8 amended: a constructed Geometry Object satisfies the index
invariant (every index below the vertex count, index count a multiple of
3) iff its construction arguments already do — `Object::new` stores the
arguments verbatim, so the invariant is a caller obligation rather than
one enforced at construction. -/
theorem c8_object_invariant_iff (v : List Vertex) (idx : List Nat) :
    (Object.new v idx).indexInvariant ↔
      ((∀ i ∈ idx, i < v.length) ∧ idx.length % 3 = 0) := Iff.rfl

/-- C9: `Object::new` performs no validation: for every input pair, the
returned object's `vertices` and `indices` fields are exactly the
arguments passed in. -/
theorem c9_object_new_stores_arguments (v : List Vertex) (idx : List Nat) :
    (Object.new v idx).vertices = v ∧ (Object.new v idx).indices = idx :=
  ⟨rfl, rfl⟩

end Claims
